import Mathlib

/-!
# Verification of the UPI fraud-detection risk engine

Shallow embedding of `backend/ml_model/fraud_detector.py` (class `FraudDetector`).

Modelling conventions:
* Python floats are modelled as exact rationals (`ℚ`); every weight and
  threshold in the source is a short decimal, so the arithmetic on the rule
  weights is exact in both worlds.
* `float(transaction.amount)` can raise `ValueError` when the amount field does
  not convert to a number; we model the amount field as `Option ℚ`, where
  `none` stands for an inconvertible field, and functions that perform the
  conversion return `Except String _`, where `.error` models the raised
  exception.
* Strings are processed as `List Char` (code points), matching Python's
  per-code-point semantics of `len`, slicing and iteration.  Case mapping and
  digit tests are modelled for the ASCII range, which covers the fixed
  keyword/regex alphabets of the source.
* The optional fields `device_id` and `location` are `Option String`; Python
  truthiness (`None` and `""` are falsy) is `pyTruthy`.
* `datetime.now()` timestamps are wall-clock output and are omitted from the
  verdict record; no claim mentions them.  `created_at` is modelled by the two
  projections the code reads: `.hour` and `.weekday()`.
-/

/-- A transaction record as read by `FraudDetector`
(`backend/ml_model/fraud_detector.py`).  `amount` is `none` when the field
cannot be converted to a float (then `float(transaction.amount)` raises). -/
structure Transaction where
  amount : Option ℚ
  transaction_type : String
  /-- `transaction.created_at.hour`, in `0..23`. -/
  hour : ℕ
  /-- `transaction.created_at.weekday()`, in `0..6`. -/
  weekday : ℕ
  sender_upi : String
  receiver_upi : String
  device_id : Option String
  location : Option String

/-- The verdict dictionary.  `confidence` is `some` only on the CNN path and
`reasons` is `some` only on the rule-based path, modelling which keys the two
dict literals of the source actually contain. -/
structure Verdict where
  is_fraud : Bool
  fraud_probability : ℚ
  detection_method : String
  confidence : Option ℚ
  reasons : Option (List String)
deriving DecidableEq

/-- Python truthiness of an optional string field: `None` and `""` are falsy. -/
def pyTruthy : Option String → Bool
  | none => false
  | some s => !s.toList.isEmpty

/-- Python's `%` on floats: `a % b = a - b * floor(a / b)` (result carries the
sign of the divisor).  Used by the source with divisors `1000` and `10`. -/
def pyMod (a b : ℚ) : ℚ := a - b * (⌊a / b⌋ : ℚ)

/-- Python's `int(x)` on a float: truncation toward zero. -/
def pyInt (q : ℚ) : ℤ := if q < 0 then -⌊-q⌋ else ⌊q⌋

/-- Helper for `pyIntComma`: given the digit characters least-significant
first, re-emit them inserting `','` after every third digit (Python's
`format(n, ",")` grouping). -/
def groupDigitsRev : List Char → ℕ → List Char
  | [], _ => []
  | [c], _ => [c]
  | c :: cs, i => c :: ((if (i + 1) % 3 == 0 then [','] else []) ++ groupDigitsRev cs (i + 1))

/-- Python's `f"{n:,}"` for an integer `n`: decimal digits with `,` as the
thousands separator. -/
def pyIntComma (n : ℤ) : String :=
  (if n < 0 then "-" else "") ++ String.mk ((groupDigitsRev (toString n.natAbs).toList.reverse 0).reverse)

/-- Helper for `decimalSuffix`: the decimal digits of a fractional part
`0 ≤ r < 1`, produced most-significant first, stopping when the remainder is
exhausted (fuel-bounded). -/
def fracDigitsAux : ℕ → ℚ → List Char
  | 0, _ => []
  | fuel + 1, r =>
    if r = 0 then []
    else Char.ofNat (48 + (⌊r * 10⌋ : ℤ).toNat) :: fracDigitsAux fuel (r * 10 - (⌊r * 10⌋ : ℤ))

/-- Models `str(amount).split('.')[-1]` for a Python float `amount`: the digit
string after the decimal point, with no trailing zeros (`"0"` for an integral
value) — Python's `repr` of a float prints the shortest decimal form, which for
the terminating decimals used as amounts is exactly this digit string. -/
def decimalSuffix (q : ℚ) : String :=
  let r := |q| - (⌊|q|⌋ : ℚ)
  if r = 0 then "0" else String.mk (fracDigitsAux 20 r)

/-- A character of the regex class `[a-zA-Z0-9.\-_]` (local part of a UPI id). -/
def upiLocalChar (c : Char) : Bool :=
  c.isAlpha || c.isDigit || c == '.' || c == '-' || c == '_'

/-- Whether a string (as a char list) is in the language of the regex body
`[a-zA-Z0-9.\-_]{3,}@[a-zA-Z]{3,}` matched in full.  Since `'@'` is in neither
character class, a word of the language decomposes at its first `'@'`. -/
def upiMatch (cs : List Char) : Bool :=
  let l := cs.takeWhile (fun c => c != '@')
  match cs.dropWhile (fun c => c != '@') with
  | '@' :: p =>
    decide (3 ≤ l.length) && l.all upiLocalChar && decide (3 ≤ p.length) && p.all Char.isAlpha
  | _ => false

/-- `FraudDetector._validate_upi_format`: `re.match(r'^[a-zA-Z0-9.\-_]{3,}@[a-zA-Z]{3,}$', upi_id)`
after a falsy check.  Python's `'$'` anchor matches at the end of the string
*or just before a trailing `'\n'`*, so a match exists iff the whole string, or
the string minus one trailing newline, is in the language of the body. -/
def _validate_upi_format (upi_id : String) : Bool :=
  let cs := upi_id.toList
  if cs.isEmpty then false
  else upiMatch cs || (cs.getLast? == some '\n' && upiMatch cs.dropLast)

/-- The denylist of `FraudDetector._is_suspicious_upi`. -/
def suspicious_keywords : List String :=
  ["test", "fake", "dummy", "fraud", "scam", "123456", "admin", "temp"]

/-- Whether `pat` starts `s` (helper for substring containment). -/
def leadsWith : List Char → List Char → Bool
  | [], _ => true
  | _ :: _, [] => false
  | p :: ps, c :: cs => p == c && leadsWith ps cs

/-- Python's `pat in s` on strings: `pat` occurs contiguously in `s`. -/
def hasSub (pat : List Char) : List Char → Bool
  | [] => leadsWith pat []
  | c :: cs => leadsWith pat (c :: cs) || hasSub pat cs

/-- ASCII lower-casing of a char list, modelling `str.lower()` on the
identifiers involved here. -/
def lowerChars (cs : List Char) : List Char := cs.map Char.toLower

/-- `upi_id.split('@')[0]`: everything before the first `'@'` (the whole string
when there is no `'@'`). -/
def localPart (s : String) : List Char := s.toList.takeWhile (fun c => c != '@')

/-- `FraudDetector._is_suspicious_upi`: empty input is suspicious; then the
keyword denylist is checked against the **whole** lower-cased address; then the
digit fraction and the length of the part before `'@'` are checked. -/
def _is_suspicious_upi (upi_id : String) : Bool :=
  if upi_id.toList.isEmpty then true
  else
    let upi_lower := lowerChars upi_id.toList
    if suspicious_keywords.any (fun k => hasSub k.toList upi_lower) then true
    else
      let username := localPart upi_id
      if 0 < username.length ∧
          (7 : ℚ) / 10 < (username.countP (fun c => c.isDigit) : ℚ) / (username.length : ℚ) then true
      else if username.length < 3 then true
      else false

/-! ## The rule-based scorer

`FraudDetector.rule_based_detection` runs nine independent if-blocks, each
adding a weight to `fraud_score` and appending reason strings.  Each block is
embedded as a function returning its `(weight, reasons)` contribution; the
score is the sum and the reason list the in-order concatenation of the
contributions, which is exactly what the sequential `+=`/`append` code
computes. -/

/-- Rule 1 (lines 107–113): `if amount > 50000: +0.3 elif amount > 100000: +0.5`.
Note the `elif` branch is unreachable: `amount > 100000` implies
`amount > 50000`. -/
def rule1 (amount : ℚ) : ℚ × List String :=
  if amount > 50000 then (0.3, ["High transaction amount (>₹50,000)"])
  else if amount > 100000 then (0.5, ["Extremely high amount (>₹1,00,000)"])
  else (0, [])

/-- Rule 2 (lines 115–119): unusual hour. -/
def rule2 (hour : ℕ) : ℚ × List String :=
  if hour < 6 ∨ hour > 22 then
    (0.2, ["Unusual transaction time (" ++ toString hour ++ ":00 hrs)"])
  else (0, [])

/-- Rule 3 (lines 121–124): round amount. -/
def rule3 (amount : ℚ) : ℚ × List String :=
  if pyMod amount 1000 = 0 ∧ amount > 10000 then
    (0.15, ["Round amount (₹" ++ pyIntComma (pyInt amount) ++ ")"])
  else (0, [])

/-- The sentinel location strings of lines 127–128. -/
def location_sentinels : List String :=
  ["Location unavailable", "Geolocation not supported", "Unknown"]

/-- Rule 4 (lines 126–130): missing device or location, or sentinel location. -/
def rule4 (device_id location : Option String) : ℚ × List String :=
  if pyTruthy device_id = false ∨ pyTruthy location = false ∨
      location ∈ location_sentinels.map some then
    (0.35, ["Missing or invalid location/device data"])
  else (0, [])

/-- Rule 5 (lines 132–135): self transfer. -/
def rule5 (sender_upi receiver_upi : String) : ℚ × List String :=
  if sender_upi = receiver_upi then (0.6, ["Self-transfer detected (same UPI IDs)"])
  else (0, [])

/-- Rule 6 (lines 137–146): invalid UPI format; the weight is added once, one
reason per failing side. -/
def rule6 (sender_upi receiver_upi : String) : ℚ × List String :=
  if _validate_upi_format sender_upi = false ∨ _validate_upi_format receiver_upi = false then
    (0.5, (if _validate_upi_format sender_upi = false then ["Invalid sender UPI format"] else []) ++
          (if _validate_upi_format receiver_upi = false then ["Invalid receiver UPI format"] else []))
  else (0, [])

/-- Rule 7 (lines 148–151): suspicious UPI patterns. -/
def rule7 (sender_upi receiver_upi : String) : ℚ × List String :=
  if _is_suspicious_upi sender_upi = true ∨ _is_suspicious_upi receiver_upi = true then
    (0.25, ["Suspicious UPI pattern detected"])
  else (0, [])

/-- Rule 8 (lines 153–156): small-amount pattern. -/
def rule8 (amount : ℚ) : ℚ × List String :=
  if 100 ≤ amount ∧ amount ≤ 500 then (0.1, ["Small amount transaction pattern"])
  else (0, [])

/-- Rule 9 (lines 158–163): unusual amount precision. -/
def rule9 (amount : ℚ) : ℚ × List String :=
  if amount > 1000 ∧ ¬ pyMod amount 10 = 0 then
    if decimalSuffix amount ∉ ["0", "00", "5", "50"] then
      (0.1, ["Unusual amount precision"])
    else (0, [])
  else (0, [])

/-- The nine `(weight, reasons)` contributions in declaration order. -/
def ruleSteps (t : Transaction) (amount : ℚ) : List (ℚ × List String) :=
  [rule1 amount, rule2 t.hour, rule3 amount,
   rule4 t.device_id t.location,
   rule5 t.sender_upi t.receiver_upi,
   rule6 t.sender_upi t.receiver_upi,
   rule7 t.sender_upi t.receiver_upi,
   rule8 amount, rule9 amount]

/-- The verdict built by `rule_based_detection` once the amount has converted
(lines 102–173): `fraud_score` is the sum of the triggered weights, the
probability is `min(fraud_score, 1.0)`, `is_fraud` compares the *unclamped*
score with `0.5` (line 165), and the reasons are concatenated in rule order. -/
def rule_based_core (t : Transaction) (amount : ℚ) : Verdict :=
  { is_fraud := decide (((ruleSteps t amount).map Prod.fst).sum > 0.5),
    fraud_probability := min ((ruleSteps t amount).map Prod.fst).sum 1,
    detection_method := "rule_based",
    confidence := none,
    reasons := some (((ruleSteps t amount).map Prod.snd).flatten) }

/-- `FraudDetector.rule_based_detection` (lines 92–173).  The initial
`float(transaction.amount)` is the only fallible statement; it raises (here:
`.error`) when the amount does not convert. -/
def rule_based_detection (t : Transaction) : Except String Verdict :=
  match t.amount with
  | none => .error "could not convert string to float"
  | some amount => .ok (rule_based_core t amount)

/-! ## Feature extraction -/

/-- The `type_encoding` dict of line 57 with `.get(_, 0)` default. -/
def type_encoding (transaction_type : String) : ℚ :=
  if transaction_type = "SEND" then 0
  else if transaction_type = "RECEIVE" then 1
  else if transaction_type = "REQUEST" then 2
  else 0

/-- The `while len(features) < 64` padding loop of lines 81–86, one appended
element per iteration; `fuel` bounds the iteration count (64 suffices since the
list grows by one each round). -/
def padFeatures : ℕ → List ℚ → ℚ → ℚ → List ℚ
  | 0, features, _, _ => features
  | fuel + 1, features, amount, hour =>
    if features.length < 64 then
      padFeatures fuel
        (features ++ [if features.length < 16 then
                        (if features.length = 8 then amount * hour else 0) else 0])
        amount hour
    else features

/-- The eight leading features of `extract_features` (lines 49–76), in source
order. -/
def base_features (t : Transaction) (amount : ℚ) : List ℚ :=
  [amount / 100000,
   type_encoding t.transaction_type / 2,
   (t.hour : ℚ) / 23,
   (t.weekday : ℚ) / 6,
   (t.sender_upi.toList.length : ℚ) / 100,
   (t.receiver_upi.toList.length : ℚ) / 100,
   if pyTruthy t.location then 1 else 0,
   if pyTruthy t.device_id then 1 else 0]

/-- The feature list for a convertible amount: the base features padded to 64
entries (note the padding reads the *normalized* `hour` variable of line 61). -/
def features_core (t : Transaction) (amount : ℚ) : List ℚ :=
  (padFeatures 64 (base_features t amount) amount ((t.hour : ℚ) / 23)).take 64

/-- `FraudDetector.extract_features` (lines 39–90).  The final
`np.reshape(1, 8, 8, 1)` only changes the shape metadata; the 64 scalars and
their order are returned as a flat list. -/
def extract_features (t : Transaction) : Except String (List ℚ) :=
  match t.amount with
  | none => .error "could not convert string to float"
  | some amount => .ok (features_core t amount)

/-! ## The detector and its prediction entry point -/

/-- The detector state after `__init__`/`load_model`: `model` is `some f` when
both artifact files loaded (`f` is the loaded classifier's probability
function, `FraudDetectionCNN.predict` composed with the scaler —
modelled from the spec: `cnn_model.py` is not part of the sources, §4.4 says it
returns a single fraud probability for the encoded features), and `none` when a
file was absent or loading failed. -/
structure FraudDetector where
  model : Option (List ℚ → ℚ)

/-- `FraudDetector.predict` (lines 213–246).  The `try` covers both branches;
the `except` handler calls `rule_based_detection`, so a failure of feature
extraction falls back to the rule path — and when that path itself raises (the
amount is inconvertible), the exception propagates out of `predict`, which is
exactly the value `rule_based_detection` returns here in that case. -/
def predict (d : FraudDetector) (t : Transaction) : Except String Verdict :=
  match d.model with
  | some m =>
    match extract_features t with
    | .ok features =>
      let probability := m features
      .ok { is_fraud := decide (probability > 0.5),
            fraud_probability := probability,
            detection_method := "cnn_model",
            confidence := some (|probability - 0.5| * 2),
            reasons := none }
    | .error _ => rule_based_detection t
  | none => rule_based_detection t

/-- `predict` with the detector state threaded through: the method never
reassigns `self.model`, so the state component is returned unchanged (no
retry of `load_model` for the process lifetime). -/
def predictS (d : FraudDetector) (t : Transaction) : Except String Verdict × FraudDetector :=
  (predict d t, d)

/-- A detector whose model artifacts failed to load (rule-based mode). -/
def noModel : FraudDetector := ⟨none⟩

/-- A loaded classifier that returns probability 0.7 on every feature vector
(stands in for the external CNN artifact, which is outside the sources). -/
def constModel : List ℚ → ℚ := fun _ => 0.7

/-- A detector in the loaded-model state, wrapping `constModel`. -/
def constDetector : FraudDetector := ⟨some constModel⟩

/-- The C5 claim's reading of `is_suspicious`, built from the claim's words:
the denylist is matched against the **local part only** (the code instead
matches it against the whole lower-cased address).  Kept for comparison with
`_is_suspicious_upi`. -/
def suspicious_localOnly (s : String) : Bool :=
  s.toList.isEmpty ||
  suspicious_keywords.any (fun k => hasSub k.toList (lowerChars (localPart s))) ||
  (decide (0 < (localPart s).length) &&
    decide ((7 : ℚ) / 10 <
      ((localPart s).countP (fun c => c.isDigit) : ℚ) / ((localPart s).length : ℚ))) ||
  decide ((localPart s).length < 3)

/-! ### The two §8 example transactions and related concrete records -/

/-- §8 example: amount 150000, hour 2, weekday 3, device and location present,
distinct valid non-suspicious addresses. -/
def t150 : Transaction :=
  { amount := some 150000, transaction_type := "SEND", hour := 2, weekday := 3,
    sender_upi := "ravi.kumar@icici", receiver_upi := "john@paytm",
    device_id := some "device123", location := some "Mumbai" }

/-- §8 example: amount 75000, same context as `t150`. -/
def t75 : Transaction :=
  { amount := some 75000, transaction_type := "SEND", hour := 2, weekday := 3,
    sender_upi := "ravi.kumar@icici", receiver_upi := "john@paytm",
    device_id := some "device123", location := some "Mumbai" }

/-- A record whose `amount` field does not convert to a float
(e.g. `amount = "abc"`); `float(transaction.amount)` raises on it. -/
def tBadAmount : Transaction :=
  { amount := none, transaction_type := "SEND", hour := 10, weekday := 0,
    sender_upi := "ravi.kumar@icici", receiver_upi := "john@paytm",
    device_id := some "device123", location := some "Mumbai" }



/-! ## Evaluation lemmas

The kernel cannot reduce `ℚ` arithmetic, so branch conditions involving
rationals are discharged by `norm_num`; everything on strings, lists and
naturals evaluates by `decide`/`rfl`. -/

lemma rule_based_detection_some {t : Transaction} {a : ℚ} (h : t.amount = some a) :
    rule_based_detection t = .ok (rule_based_core t a) := by
  unfold rule_based_detection; rw [h]

lemma extract_features_some {t : Transaction} {a : ℚ} (h : t.amount = some a) :
    extract_features t = .ok (features_core t a) := by
  unfold extract_features; rw [h]

lemma rule_based_detection_none {t : Transaction} (h : t.amount = none) :
    rule_based_detection t = .error "could not convert string to float" := by
  unfold rule_based_detection; rw [h]

lemma predict_no_model {t : Transaction} {d : FraudDetector} (h : d.model = none) :
    predict d t = rule_based_detection t := by
  unfold predict; rw [h]

lemma pyMod_eq_zero {a b : ℚ} (k : ℤ) (hb : b ≠ 0) (h : a = b * k) : pyMod a b = 0 := by
  subst h; unfold pyMod
  rw [mul_comm b (k : ℚ), mul_div_assoc, div_self hb, mul_one, Int.floor_intCast]
  ring

lemma pyInt_natCast (n : ℕ) : pyInt (n : ℚ) = n := by
  unfold pyInt
  rw [if_neg (not_lt.mpr (by positivity)), Int.floor_natCast]

/-- The digit-fraction test of `_is_suspicious_upi`, re-expressed over `ℕ`. -/
lemma digitCond_iff (u : List Char) :
    (0 < u.length ∧ (7 : ℚ) / 10 < (u.countP (fun c => c.isDigit) : ℚ) / (u.length : ℚ)) ↔
    (0 < u.length ∧ 7 * u.length < 10 * u.countP (fun c => c.isDigit)) := by
  constructor <;> rintro ⟨h, h2⟩ <;> refine ⟨h, ?_⟩
  · rw [div_lt_div_iff₀ (by norm_num) (by exact_mod_cast h)] at h2
    have : 7 * (u.length : ℚ) < (u.countP (fun c => c.isDigit) : ℚ) * 10 := h2
    have h3 : 7 * u.length < u.countP (fun c => c.isDigit) * 10 := by exact_mod_cast this
    omega
  · rw [div_lt_div_iff₀ (by norm_num) (by exact_mod_cast h)]
    have h3 : 7 * u.length < u.countP (fun c => c.isDigit) * 10 := by omega
    exact_mod_cast h3

/-- `_is_suspicious_upi` with its one rational test replaced by the equivalent
natural-number comparison, so that concrete instances evaluate by `decide`. -/
lemma _is_suspicious_upi_eq (upi_id : String) :
    _is_suspicious_upi upi_id =
      (if upi_id.toList.isEmpty then true
       else if suspicious_keywords.any (fun k => hasSub k.toList (lowerChars upi_id.toList)) then true
       else if 0 < (localPart upi_id).length ∧
               7 * (localPart upi_id).length < 10 * (localPart upi_id).countP (fun c => c.isDigit) then true
       else if (localPart upi_id).length < 3 then true
       else false) := by
  unfold _is_suspicious_upi
  simp only [digitCond_iff]

lemma susp_ravi : _is_suspicious_upi "ravi.kumar@icici" = false := by
  rw [_is_suspicious_upi_eq]; decide

lemma susp_john : _is_suspicious_upi "john@paytm" = false := by
  rw [_is_suspicious_upi_eq]; decide

lemma rule1_150000 : rule1 150000 = (0.3, ["High transaction amount (>₹50,000)"]) := by
  rw [rule1, if_pos (by norm_num : (150000 : ℚ) > 50000)]

lemma rule1_75000 : rule1 75000 = (0.3, ["High transaction amount (>₹50,000)"]) := by
  rw [rule1, if_pos (by norm_num : (75000 : ℚ) > 50000)]

lemma rule2_2 : rule2 2 = (0.2, ["Unusual transaction time (2:00 hrs)"]) := by
  rw [rule2, if_pos (by decide : (2 : ℕ) < 6 ∨ (2 : ℕ) > 22)]
  exact congrArg (Prod.mk 0.2) (by decide)

lemma rule3_150000 : rule3 150000 = (0.15, ["Round amount (₹150,000)"]) := by
  rw [rule3, if_pos ⟨pyMod_eq_zero 150 (by norm_num) (by norm_num), by norm_num⟩,
      show (150000 : ℚ) = ((150000 : ℕ) : ℚ) by norm_num, pyInt_natCast]
  exact congrArg (Prod.mk 0.15) (by decide)

lemma rule3_75000 : rule3 75000 = (0.15, ["Round amount (₹75,000)"]) := by
  rw [rule3, if_pos ⟨pyMod_eq_zero 75 (by norm_num) (by norm_num), by norm_num⟩,
      show (75000 : ℚ) = ((75000 : ℕ) : ℚ) by norm_num, pyInt_natCast]
  exact congrArg (Prod.mk 0.15) (by decide)

lemma rule7_ex : rule7 "ravi.kumar@icici" "john@paytm" = (0, []) := by
  rw [rule7, if_neg (by simp [susp_ravi, susp_john])]

lemma rule8_150000 : rule8 150000 = (0, []) := by
  rw [rule8, if_neg (fun h => absurd h.2 (by norm_num))]

lemma rule8_75000 : rule8 75000 = (0, []) := by
  rw [rule8, if_neg (fun h => absurd h.2 (by norm_num))]

lemma rule9_150000 : rule9 150000 = (0, []) := by
  rw [rule9, if_neg (fun h => h.2 (pyMod_eq_zero 15000 (by norm_num) (by norm_num)))]

lemma rule9_75000 : rule9 75000 = (0, []) := by
  rw [rule9, if_neg (fun h => h.2 (pyMod_eq_zero 7500 (by norm_num) (by norm_num)))]

lemma ruleSteps_t150 :
    ruleSteps t150 150000 =
      [(0.3, ["High transaction amount (>₹50,000)"]),
       (0.2, ["Unusual transaction time (2:00 hrs)"]),
       (0.15, ["Round amount (₹150,000)"]),
       (0, []), (0, []), (0, []), (0, []), (0, []), (0, [])] := by
  show [rule1 150000, rule2 2, rule3 150000,
        rule4 (some "device123") (some "Mumbai"),
        rule5 "ravi.kumar@icici" "john@paytm",
        rule6 "ravi.kumar@icici" "john@paytm",
        rule7 "ravi.kumar@icici" "john@paytm",
        rule8 150000, rule9 150000] = _
  rw [rule1_150000, rule2_2, rule3_150000, rule7_ex, rule8_150000, rule9_150000]
  rfl

lemma ruleSteps_t75 :
    ruleSteps t75 75000 =
      [(0.3, ["High transaction amount (>₹50,000)"]),
       (0.2, ["Unusual transaction time (2:00 hrs)"]),
       (0.15, ["Round amount (₹75,000)"]),
       (0, []), (0, []), (0, []), (0, []), (0, []), (0, [])] := by
  show [rule1 75000, rule2 2, rule3 75000,
        rule4 (some "device123") (some "Mumbai"),
        rule5 "ravi.kumar@icici" "john@paytm",
        rule6 "ravi.kumar@icici" "john@paytm",
        rule7 "ravi.kumar@icici" "john@paytm",
        rule8 75000, rule9 75000] = _
  rw [rule1_75000, rule2_2, rule3_75000, rule7_ex, rule8_75000, rule9_75000]
  rfl

lemma rule_based_core_eval (t : Transaction) (a : ℚ)
    (steps : List (ℚ × List String)) (h : ruleSteps t a = steps)
    (s : ℚ) (hs : (steps.map Prod.fst).sum = s)
    (b : Bool) (hb : decide (s > 0.5) = b)
    (p : ℚ) (hp : min s 1 = p)
    (rs : List String) (hrs : (steps.map Prod.snd).flatten = rs) :
    rule_based_core t a = ⟨b, p, "rule_based", none, some rs⟩ := by
  unfold rule_based_core
  rw [h, hs, hb, hp, hrs]

lemma rule_based_t150 :
    rule_based_detection t150 =
      .ok ⟨true, 0.65, "rule_based", none,
           some ["High transaction amount (>₹50,000)",
                 "Unusual transaction time (2:00 hrs)",
                 "Round amount (₹150,000)"]⟩ := by
  rw [rule_based_detection_some (rfl : t150.amount = some 150000),
      rule_based_core_eval t150 150000 _ ruleSteps_t150
        0.65 (by norm_num) true (decide_eq_true (by norm_num))
        0.65 (min_eq_left (by norm_num))
        ["High transaction amount (>₹50,000)",
         "Unusual transaction time (2:00 hrs)",
         "Round amount (₹150,000)"] (by decide)]

lemma rule_based_t75 :
    rule_based_detection t75 =
      .ok ⟨true, 0.65, "rule_based", none,
           some ["High transaction amount (>₹50,000)",
                 "Unusual transaction time (2:00 hrs)",
                 "Round amount (₹75,000)"]⟩ := by
  rw [rule_based_detection_some (rfl : t75.amount = some 75000),
      rule_based_core_eval t75 75000 _ ruleSteps_t75
        0.65 (by norm_num) true (decide_eq_true (by norm_num))
        0.65 (min_eq_left (by norm_num))
        ["High transaction amount (>₹50,000)",
         "Unusual transaction time (2:00 hrs)",
         "Round amount (₹75,000)"] (by decide)]

/-! ## Generic structure of the rule contributions

Every rule contributes a nonnegative weight, and it contributes a nonempty
reason list exactly when it contributes a nonzero weight. -/

lemma rule1_spec (a : ℚ) : 0 ≤ (rule1 a).1 ∧ ((rule1 a).2 = [] ↔ (rule1 a).1 = 0) := by
  unfold rule1; split_ifs <;> norm_num

lemma rule2_spec (h : ℕ) : 0 ≤ (rule2 h).1 ∧ ((rule2 h).2 = [] ↔ (rule2 h).1 = 0) := by
  unfold rule2; split_ifs <;> norm_num

lemma rule3_spec (a : ℚ) : 0 ≤ (rule3 a).1 ∧ ((rule3 a).2 = [] ↔ (rule3 a).1 = 0) := by
  unfold rule3; split_ifs <;> norm_num

lemma rule4_spec (d l : Option String) :
    0 ≤ (rule4 d l).1 ∧ ((rule4 d l).2 = [] ↔ (rule4 d l).1 = 0) := by
  unfold rule4; split_ifs <;> norm_num

lemma rule5_spec (s r : String) :
    0 ≤ (rule5 s r).1 ∧ ((rule5 s r).2 = [] ↔ (rule5 s r).1 = 0) := by
  unfold rule5; split_ifs <;> norm_num

lemma rule6_spec (s r : String) :
    0 ≤ (rule6 s r).1 ∧ ((rule6 s r).2 = [] ↔ (rule6 s r).1 = 0) := by
  unfold rule6; split_ifs <;> simp_all <;> norm_num

lemma rule7_spec (s r : String) :
    0 ≤ (rule7 s r).1 ∧ ((rule7 s r).2 = [] ↔ (rule7 s r).1 = 0) := by
  unfold rule7; split_ifs <;> norm_num

lemma rule8_spec (a : ℚ) : 0 ≤ (rule8 a).1 ∧ ((rule8 a).2 = [] ↔ (rule8 a).1 = 0) := by
  unfold rule8; split_ifs <;> norm_num

lemma rule9_spec (a : ℚ) : 0 ≤ (rule9 a).1 ∧ ((rule9 a).2 = [] ↔ (rule9 a).1 = 0) := by
  unfold rule9; split_ifs <;> norm_num

lemma ruleSteps_spec (t : Transaction) (a : ℚ) :
    ∀ p ∈ ruleSteps t a, 0 ≤ p.1 ∧ (p.2 = [] ↔ p.1 = 0) := by
  intro p hp
  simp only [ruleSteps, List.mem_cons, List.not_mem_nil, or_false] at hp
  rcases hp with rfl | rfl | rfl | rfl | rfl | rfl | rfl | rfl | rfl
  · exact rule1_spec a
  · exact rule2_spec t.hour
  · exact rule3_spec a
  · exact rule4_spec t.device_id t.location
  · exact rule5_spec t.sender_upi t.receiver_upi
  · exact rule6_spec t.sender_upi t.receiver_upi
  · exact rule7_spec t.sender_upi t.receiver_upi
  · exact rule8_spec a
  · exact rule9_spec a

/-- For a list of rule contributions each of which is nonnegative and silent
exactly when zero, the total is nonnegative and the concatenated reasons are
empty exactly when the total is zero. -/
lemma steps_sum_flatten (l : List (ℚ × List String))
    (h : ∀ p ∈ l, 0 ≤ p.1 ∧ (p.2 = [] ↔ p.1 = 0)) :
    0 ≤ (l.map Prod.fst).sum ∧
      ((l.map Prod.snd).flatten = [] ↔ (l.map Prod.fst).sum = 0) := by
  induction l with
  | nil => simp
  | cons p l ih =>
    obtain ⟨hp, hpiff⟩ := h p (List.mem_cons_self p l)
    obtain ⟨hs, hiff⟩ := ih (fun q hq => h q (List.mem_cons_of_mem p hq))
    refine ⟨by simpa using add_nonneg hp hs, ?_⟩
    simp only [List.map_cons, List.flatten_cons, List.sum_cons, List.append_eq_nil]
    rw [add_eq_zero_iff_of_nonneg hp hs]
    exact and_congr hpiff hiff

/-! ## Shape of the feature vector -/

lemma padFeatures_stop (fuel : ℕ) (l : List ℚ) (a h : ℚ) (hl : ¬ l.length < 64) :
    padFeatures fuel l a h = l := by
  cases fuel with
  | zero => rfl
  | succ n => simp only [padFeatures]; rw [if_neg hl]

lemma padFeatures_step (fuel : ℕ) (l : List ℚ) (a h : ℚ) (hf : fuel ≠ 0)
    (hl : l.length < 64) :
    padFeatures fuel l a h =
      padFeatures (fuel - 1)
        (l ++ [if l.length < 16 then (if l.length = 8 then a * h else 0) else 0]) a h := by
  cases fuel with
  | zero => exact absurd rfl hf
  | succ n => simp only [padFeatures]; rw [if_pos hl, Nat.add_sub_cancel]

/-- Once the list has at least 9 elements, every loop iteration appends `0`
(the `len == 8` slot is behind), so the loop fills up to 64 with zeros. -/
lemma padFeatures_fill9 (fuel : ℕ) (l : List ℚ) (a h : ℚ)
    (h9 : 9 ≤ l.length) (hfuel : 64 ≤ l.length + fuel) :
    padFeatures fuel l a h = l ++ List.replicate (64 - l.length) 0 := by
  induction fuel generalizing l with
  | zero =>
    rw [padFeatures_stop 0 l a h (by omega)]
    rw [show 64 - l.length = 0 by omega]
    simp
  | succ n ih =>
    by_cases hl : l.length < 64
    · rw [padFeatures_step (n + 1) l a h (Nat.succ_ne_zero n) hl]
      have hx : (if l.length < 16 then (if l.length = 8 then a * h else 0) else 0) = 0 := by
        split_ifs with hA hB
        · exact absurd hB (by omega)
        · rfl
        · rfl
      rw [hx]
      simp only [Nat.add_sub_cancel]
      rw [ih (l ++ [0]) (by simp; omega) (by simp; omega)]
      rw [List.append_assoc]
      congr 1
      rw [show 64 - l.length = (64 - (l ++ [0]).length) + 1 by simp; omega]
      simp [List.replicate_succ]
    · rw [padFeatures_stop _ l a h hl]
      rw [show 64 - l.length = 0 by omega]
      simp

/-- The padding loop appends `amount * hour_fraction` at index 8 and zeros at
indices 9–63, so the encoder's output is the 8 base features, then
`amount * (hour/23)`, then 55 zeros. -/
lemma features_core_eq (t : Transaction) (a : ℚ) :
    features_core t a =
      base_features t a ++ a * ((t.hour : ℚ) / 23) :: List.replicate 55 0 := by
  have hb : (base_features t a).length = 8 := by simp [base_features]
  unfold features_core
  rw [padFeatures_step 64 _ _ _ (by norm_num) (by rw [hb]; norm_num)]
  rw [show (if (base_features t a).length < 16 then
             (if (base_features t a).length = 8 then a * ((t.hour : ℚ) / 23) else 0)
           else 0) = a * ((t.hour : ℚ) / 23) by rw [hb]; norm_num]
  rw [padFeatures_fill9 (64 - 1) _ _ _ (by simp [hb]) (by simp [hb])]
  rw [List.take_of_length_le (by simp [hb])]
  rw [List.append_assoc]
  congr 1

lemma features_core_length (t : Transaction) (a : ℚ) :
    (features_core t a).length = 64 := by
  rw [features_core_eq]
  simp [base_features]

/-! ## Characterisations of the address predicates -/

/-- `_validate_upi_format` ignoring the trailing-newline quirk: on any string
not ending in `'\n'`, it is exactly full-match against the anchored
UPI regex body. -/
lemma validate_eq_upiMatch (s : String) (h : s.toList.getLast? ≠ some '\n') :
    _validate_upi_format s = upiMatch s.toList := by
  simp only [_validate_upi_format]
  by_cases he : s.toList.isEmpty
  · rw [if_pos he, List.isEmpty_iff.mp he]
    rfl
  · rw [if_neg he, beq_eq_false_iff_ne.mpr h, Bool.false_and, Bool.or_false]

/-- `_is_suspicious_upi` as a disjunction of its four conditions, in the
source's order-independent reading (the nested early returns commute because
each branch returns `true`). -/
lemma suspicious_iff (s : String) :
    _is_suspicious_upi s = true ↔
      (s.toList = [] ∨
       (∃ k ∈ suspicious_keywords, hasSub k.toList (lowerChars s.toList) = true) ∨
       (0 < (localPart s).length ∧
         (7 : ℚ) / 10 < ((localPart s).countP (fun c => c.isDigit) : ℚ) / ((localPart s).length : ℚ)) ∨
       (localPart s).length < 3) := by
  rw [_is_suspicious_upi_eq]
  split_ifs with h1 h2 h3 h4
  · exact iff_of_true rfl (Or.inl (List.isEmpty_iff.mp h1))
  · exact iff_of_true rfl (Or.inr (Or.inl (List.any_eq_true.mp h2)))
  · exact iff_of_true rfl (Or.inr (Or.inr (Or.inl ((digitCond_iff _).mpr h3))))
  · exact iff_of_true rfl (Or.inr (Or.inr (Or.inr h4)))
  · simp only [Bool.false_eq_true, false_iff]
    rintro (hc | hc | hc | hc)
    · exact h1 (by rw [hc]; rfl)
    · exact h2 (List.any_eq_true.mpr hc)
    · exact h3 ((digitCond_iff _).mp hc)
    · exact h4 hc

/-! ## Shape of the reason lists (per rule) -/

lemma rule1_snd (a : ℚ) :
    (rule1 a).2 = (if a > 50000 then ["High transaction amount (>₹50,000)"]
                   else if a > 100000 then ["Extremely high amount (>₹1,00,000)"]
                   else []) := by
  unfold rule1; split_ifs <;> rfl

lemma rule2_snd (h : ℕ) :
    (rule2 h).2 = (if h < 6 ∨ h > 22 then
                     ["Unusual transaction time (" ++ toString h ++ ":00 hrs)"]
                   else []) := by
  unfold rule2; split_ifs <;> rfl

lemma rule3_snd (a : ℚ) :
    (rule3 a).2 = (if pyMod a 1000 = 0 ∧ a > 10000 then
                     ["Round amount (₹" ++ pyIntComma (pyInt a) ++ ")"]
                   else []) := by
  unfold rule3; split_ifs <;> rfl

lemma rule4_snd (d l : Option String) :
    (rule4 d l).2 = (if pyTruthy d = false ∨ pyTruthy l = false ∨
                        l ∈ location_sentinels.map some then
                       ["Missing or invalid location/device data"]
                     else []) := by
  unfold rule4; split_ifs <;> rfl

lemma rule5_snd (s r : String) :
    (rule5 s r).2 = (if s = r then ["Self-transfer detected (same UPI IDs)"] else []) := by
  unfold rule5; split_ifs <;> rfl

lemma rule6_snd (s r : String) :
    (rule6 s r).2 =
      (if _validate_upi_format s = false then ["Invalid sender UPI format"] else []) ++
      (if _validate_upi_format r = false then ["Invalid receiver UPI format"] else []) := by
  unfold rule6; split_ifs <;> simp_all

lemma rule7_snd (s r : String) :
    (rule7 s r).2 = (if _is_suspicious_upi s = true ∨ _is_suspicious_upi r = true then
                       ["Suspicious UPI pattern detected"]
                     else []) := by
  unfold rule7; split_ifs <;> rfl

lemma rule8_snd (a : ℚ) :
    (rule8 a).2 = (if 100 ≤ a ∧ a ≤ 500 then ["Small amount transaction pattern"] else []) := by
  unfold rule8; split_ifs <;> rfl

lemma rule9_snd (a : ℚ) :
    (rule9 a).2 = (if a > 1000 ∧ ¬ pyMod a 10 = 0 ∧ decimalSuffix a ∉ ["0", "00", "5", "50"] then
                     ["Unusual amount precision"]
                   else []) := by
  unfold rule9; split_ifs <;> simp_all

/-! ## Further evaluation lemmas for the prediction entry point -/

lemma predict_model {t : Transaction} {m : List ℚ → ℚ} {d : FraudDetector}
    (hd : d.model = some m) {a : ℚ} (ha : t.amount = some a) :
    predict d t = .ok { is_fraud := decide (m (features_core t a) > 0.5),
                        fraud_probability := m (features_core t a),
                        detection_method := "cnn_model",
                        confidence := some (|m (features_core t a) - 0.5| * 2),
                        reasons := none } := by
  unfold predict
  rw [hd, extract_features_some ha]

/-- Score/probability/flag relationships of the rule-based verdict. -/
lemma rule_based_core_spec (t : Transaction) (a : ℚ) :
    (rule_based_core t a).fraud_probability = min ((ruleSteps t a).map Prod.fst).sum 1 ∧
    0 ≤ (rule_based_core t a).fraud_probability ∧
    (rule_based_core t a).fraud_probability ≤ 1 ∧
    ((rule_based_core t a).is_fraud = true ↔ (rule_based_core t a).fraud_probability > 0.5) := by
  obtain ⟨hsum, -⟩ := steps_sum_flatten (ruleSteps t a) (ruleSteps_spec t a)
  refine ⟨rfl, le_min hsum (by norm_num), min_le_right _ _, ?_⟩
  show decide (((ruleSteps t a).map Prod.fst).sum > 0.5) = true ↔
    min ((ruleSteps t a).map Prod.fst).sum 1 > 0.5
  rw [decide_eq_true_eq]
  constructor
  · exact fun hgt => lt_min hgt (by norm_num)
  · exact fun hgt => lt_of_lt_of_le hgt (min_le_left _ _)

/-- The reason list is nonempty exactly when the probability is positive. -/
lemma rule_based_core_reasons_iff (t : Transaction) (a : ℚ) :
    (((ruleSteps t a).map Prod.snd).flatten ≠ [] ↔
      0 < (rule_based_core t a).fraud_probability) := by
  obtain ⟨hsum, hiff⟩ := steps_sum_flatten (ruleSteps t a) (ruleSteps_spec t a)
  show _ ↔ 0 < min ((ruleSteps t a).map Prod.fst).sum 1
  constructor
  · intro hne
    have hz : ((ruleSteps t a).map Prod.fst).sum ≠ 0 := fun h0 => hne (hiff.mpr h0)
    exact lt_min (lt_of_le_of_ne hsum (Ne.symm hz)) (by norm_num)
  · intro hpos hnil
    rw [hiff.mp hnil, min_eq_left (by norm_num : (0:ℚ) ≤ 1)] at hpos
    exact lt_irrefl 0 hpos

/-! ## Claims -/

/-- **C1 (counterexample).** At the §8 example with amount 150000 (hour 2,
context present, distinct valid non-suspicious addresses) the rule-based
verdict has probability 0.65, not the claimed clamped 1.0, and the
extremely-high-amount reason never appears: the `elif amount > 100000` branch
is shadowed by `amount > 50000`, so the two amount rules are **not**
additive. -/
theorem C1_counterexample :
    rule_based_detection t150 =
      .ok ⟨true, 0.65, "rule_based", none,
           some ["High transaction amount (>₹50,000)",
                 "Unusual transaction time (2:00 hrs)",
                 "Round amount (₹150,000)"]⟩ ∧
    (0.65 : ℚ) ≠ 1 ∧
    "Extremely high amount (>₹1,00,000)" ∉
      ["High transaction amount (>₹50,000)",
       "Unusual transaction time (2:00 hrs)",
       "Round amount (₹150,000)"] :=
  ⟨rule_based_t150, by norm_num, by decide⟩

/-- **C1 (amended).** For every amount above 100000 only the high-amount rule
fires, contributing +0.3 (the +0.5 extremely-high branch is unreachable dead
code), and at the §8 example (amount 150000, hour 2, context present, distinct
valid non-suspicious addresses) the round-amount rule also fires, so the
probability is 0.3+0.2+0.15 = 0.65 and `is_fraud = True`. -/
theorem C1_amended :
    (∀ a : ℚ, a > 100000 →
      rule1 a = (0.3, ["High transaction amount (>₹50,000)"])) ∧
    rule_based_detection t150 =
      .ok ⟨true, 0.65, "rule_based", none,
           some ["High transaction amount (>₹50,000)",
                 "Unusual transaction time (2:00 hrs)",
                 "Round amount (₹150,000)"]⟩ :=
  ⟨fun a ha => by rw [rule1, if_pos (by linarith : a > 50000)], rule_based_t150⟩

/-- Witness for C1_amended at the concrete amount 150001. -/
theorem C1_witness :
    rule1 150001 = (0.3, ["High transaction amount (>₹50,000)"]) :=
  C1_amended.1 150001 (by norm_num)

/-- **C2 (counterexample).** On a record whose amount field does not convert
to a float, `predict` itself raises (model absent, so the rule-based path runs
and its `float(transaction.amount)` raises; the `except` handler re-enters the
same failing path): the fail-soft claim is false. -/
theorem C2_counterexample :
    predict ⟨none⟩ tBadAmount = .error "could not convert string to float" ∧
    rule_based_detection tBadAmount = .error "could not convert string to float" := by
  constructor
  · rw [predict_no_model rfl]
    exact rule_based_detection_none rfl
  · exact rule_based_detection_none rfl

/-- **C2 (amended).** For every record whose amount converts to a number,
`predict` returns a verdict (for any detector state) and the rule-based path
succeeds; only an inconvertible amount makes both raise. -/
theorem C2_amended (d : FraudDetector) (t : Transaction) (a : ℚ)
    (h : t.amount = some a) :
    (predict d t).isOk = true ∧ (rule_based_detection t).isOk = true := by
  have hr : rule_based_detection t = .ok (rule_based_core t a) :=
    rule_based_detection_some h
  refine ⟨?_, by rw [hr]; rfl⟩
  cases hm : d.model with
  | none => rw [predict_no_model hm, hr]; rfl
  | some m => rw [predict_model hm h]; rfl

/-- Witness for C2_amended at the concrete detector without model and `t150`. -/
theorem C2_witness :
    (predict ⟨none⟩ t150).isOk = true ∧ (rule_based_detection t150).isOk = true :=
  C2_amended ⟨none⟩ t150 150000 rfl

/-- **C3 (counterexample).** At amount 75000, hour 2, context present,
distinct valid non-suspicious addresses, the round-amount rule (75000 is a
multiple of 1000 above 10000) fires in addition to the high-amount and
odd-hour rules, so the probability is 0.65 ≠ 0.5 and `is_fraud = True`, not
`False`. -/
theorem C3_counterexample :
    rule_based_detection t75 =
      .ok ⟨true, 0.65, "rule_based", none,
           some ["High transaction amount (>₹50,000)",
                 "Unusual transaction time (2:00 hrs)",
                 "Round amount (₹75,000)"]⟩ ∧
    (0.65 : ℚ) ≠ 0.5 ∧ ((0.65 : ℚ) > 0.5) :=
  ⟨rule_based_t75, by norm_num, by norm_num⟩

/-- **C3 (amended).** The §8 75000-example triggers exactly the high-amount
(+0.3), odd-hour (+0.2) and round-amount (+0.15) rules, yielding probability
0.65 and `is_fraud = True` under the strict greater-than threshold. -/
theorem C3_amended :
    rule_based_detection t75 =
      .ok ⟨true, 0.65, "rule_based", none,
           some ["High transaction amount (>₹50,000)",
                 "Unusual transaction time (2:00 hrs)",
                 "Round amount (₹75,000)"]⟩ :=
  rule_based_t75

/-- **C4 (confirmed).** Every rule-based verdict's probability equals
`min(sum of triggered weights, 1)`, lies in `[0,1]`, and `is_fraud` holds
exactly when the clamped probability exceeds 0.5 (the code compares the
unclamped score, which agrees because the clamp is at 1 > 0.5). -/
theorem C4_probability_clamped (t : Transaction) (a : ℚ) (h : t.amount = some a)
    (v : Verdict) (hv : rule_based_detection t = .ok v) :
    v.fraud_probability = min ((ruleSteps t a).map Prod.fst).sum 1 ∧
    0 ≤ v.fraud_probability ∧ v.fraud_probability ≤ 1 ∧
    (v.is_fraud = true ↔ v.fraud_probability > 0.5) := by
  rw [rule_based_detection_some h] at hv
  injection hv with h2
  subst h2
  exact rule_based_core_spec t a

/-- Witness for C4 at the concrete transaction `t150`. -/
theorem C4_witness :
    (0.65 : ℚ) = min ((ruleSteps t150 150000).map Prod.fst).sum 1 ∧
    (0 : ℚ) ≤ 0.65 ∧ (0.65 : ℚ) ≤ 1 ∧
    (true = true ↔ (0.65 : ℚ) > 0.5) :=
  C4_probability_clamped t150 150000 rfl
    ⟨true, 0.65, "rule_based", none,
     some ["High transaction amount (>₹50,000)",
           "Unusual transaction time (2:00 hrs)",
           "Round amount (₹150,000)"]⟩ rule_based_t150

/-- **C5 (counterexample).** The code checks the denylist against the whole
lower-cased address, not only the local part: `"ravi.kumar@testbank"` has a
clean local part (`"ravi.kumar"`: no denylist word, 0/10 digits, length 10)
but the provider part contains `"test"`, so the code flags it while the
claim's local-part-only predicate does not. -/
theorem C5_counterexample :
    _is_suspicious_upi "ravi.kumar@testbank" = true ∧
    suspicious_localOnly "ravi.kumar@testbank" = false := by
  refine ⟨by decide, ?_⟩
  unfold suspicious_localOnly
  have hD : decide ((7 : ℚ) / 10 <
      ((localPart "ravi.kumar@testbank").countP (fun c => c.isDigit) : ℚ) /
      ((localPart "ravi.kumar@testbank").length : ℚ)) = false := by
    apply decide_eq_false
    rw [show (localPart "ravi.kumar@testbank").countP (fun c => c.isDigit) = 0 from by decide,
        show (localPart "ravi.kumar@testbank").length = 10 from by decide]
    norm_num
  rw [hD]
  decide

/-- **C5 (amended).** `is_suspicious(address)` is true exactly when the
address is empty, or a denylist substring occurs in the **whole** lower-cased
address (provider part included), or the local part's digit fraction exceeds
0.7 (with nonempty local part), or the local part is shorter than 3
characters; and the two quoted examples evaluate as stated. -/
theorem C5_amended :
    (∀ s : String, _is_suspicious_upi s = true ↔
      (s.toList = [] ∨
       (∃ k ∈ suspicious_keywords, hasSub k.toList (lowerChars s.toList) = true) ∨
       (0 < (localPart s).length ∧
         (7 : ℚ) / 10 <
           ((localPart s).countP (fun c => c.isDigit) : ℚ) / ((localPart s).length : ℚ)) ∨
       (localPart s).length < 3)) ∧
    _is_suspicious_upi "admin123@ybl" = true ∧
    _is_suspicious_upi "ravi.kumar@icici" = false :=
  ⟨suspicious_iff, by decide, susp_ravi⟩

/-- **C6 (counterexample).** Python's `'$'` also matches just before a
trailing newline, so `validate("john@paytm\n")` is true although the entire
string (with its extra `'\n'`) does not match the anchored pattern. -/
theorem C6_counterexample :
    _validate_upi_format "john@paytm\n" = true ∧
    upiMatch "john@paytm\n".toList = false := by
  constructor <;> decide

/-- **C6 (amended).** `validate` returns false on empty input and otherwise
accepts exactly the strings that fully match `^[A-Za-z0-9._-]{3,}@[A-Za-z]{3,}$`
— up to Python's `'$'` newline quirk: for every string not ending in `'\n'`
the claim holds as stated, and the three quoted examples evaluate as
claimed. -/
theorem C6_amended :
    (∀ s : String, s.toList.getLast? ≠ some '\n' →
      _validate_upi_format s = upiMatch s.toList) ∧
    _validate_upi_format "john@paytm" = true ∧
    _validate_upi_format "jo@paytm" = false ∧
    _validate_upi_format "john@pt" = false :=
  ⟨validate_eq_upiMatch, by decide, by decide, by decide⟩

/-- Witness for C6_amended at a concrete newline-free address. -/
theorem C6_witness :
    _validate_upi_format "ravi.kumar@icici" = upiMatch "ravi.kumar@icici".toList :=
  C6_amended.1 "ravi.kumar@icici" (by decide)

/-- **C7 (confirmed).** For every record with a convertible amount the encoder
returns exactly 64 scalars in the documented order: the 8 base features, then
`amount * (hour/23)` at index 8, then zeros at indices 9–63; absent optional
fields contribute a 0.0 flag (`pyTruthy none = false`) rather than failing. -/
theorem C7_feature_vector (t : Transaction) (a : ℚ) (h : t.amount = some a) :
    extract_features t = .ok (features_core t a) ∧
    features_core t a =
      [a / 100000,
       type_encoding t.transaction_type / 2,
       (t.hour : ℚ) / 23,
       (t.weekday : ℚ) / 6,
       (t.sender_upi.toList.length : ℚ) / 100,
       (t.receiver_upi.toList.length : ℚ) / 100,
       if pyTruthy t.location then 1 else 0,
       if pyTruthy t.device_id then 1 else 0] ++
      a * ((t.hour : ℚ) / 23) :: List.replicate 55 0 ∧
    (features_core t a).length = 64 ∧
    pyTruthy none = false :=
  ⟨extract_features_some h, by rw [features_core_eq]; rfl, features_core_length t a, rfl⟩

/-- Witness for C7 at the concrete transaction `t150`. -/
theorem C7_witness :
    extract_features t150 = .ok (features_core t150 150000) ∧
    features_core t150 150000 =
      [150000 / 100000,
       type_encoding t150.transaction_type / 2,
       (t150.hour : ℚ) / 23,
       (t150.weekday : ℚ) / 6,
       (t150.sender_upi.toList.length : ℚ) / 100,
       (t150.receiver_upi.toList.length : ℚ) / 100,
       if pyTruthy t150.location then 1 else 0,
       if pyTruthy t150.device_id then 1 else 0] ++
      150000 * ((t150.hour : ℚ) / 23) :: List.replicate 55 0 ∧
    (features_core t150 150000).length = 64 ∧
    pyTruthy none = false :=
  C7_feature_vector t150 150000 rfl

/-- **C8 (confirmed).** When the model is absent the detector returns the
rule-based result for every input, with `detection_method = "rule_based"` on
every successful verdict, and the detector state is returned unchanged —
`load_model` ran once at construction and `predict` never retries it. -/
theorem C8_no_model_fallback (d : FraudDetector) (t : Transaction) (h : d.model = none) :
    predictS d t = (rule_based_detection t, d) ∧
    ∀ v : Verdict, rule_based_detection t = .ok v → v.detection_method = "rule_based" := by
  refine ⟨?_, ?_⟩
  · unfold predictS; rw [predict_no_model h]
  · intro v hv
    cases ht : t.amount with
    | none => rw [rule_based_detection_none ht] at hv; simp at hv
    | some a =>
      rw [rule_based_detection_some ht] at hv
      injection hv with h2
      rw [← h2]
      rfl

/-- Witness for C8 at the concrete model-less detector and `t150`. -/
theorem C8_witness :
    predictS noModel t150 = (rule_based_detection t150, noModel) ∧
    Verdict.detection_method
      ⟨true, 0.65, "rule_based", none,
       some ["High transaction amount (>₹50,000)",
             "Unusual transaction time (2:00 hrs)",
             "Round amount (₹150,000)"]⟩ = "rule_based" :=
  ⟨(C8_no_model_fallback noModel t150 rfl).1,
   (C8_no_model_fallback noModel t150 rfl).2 _ rule_based_t150⟩

/-- **C9 (counterexample).** The model-path verdict has **no** `reasons` key
at all (`none`), not an empty list: with a loaded model returning 0.7 the
verdict is `{is_fraud: true, fraud_probability: 0.7, detection_method:
"cnn_model", confidence: 0.4}` and `reasons` is absent. -/
theorem C9_counterexample :
    predict constDetector t150 = .ok ⟨true, 0.7, "cnn_model", some 0.4, none⟩ ∧
    (none : Option (List String)) ≠ some ([] : List String) := by
  refine ⟨?_, by simp⟩
  rw [predict_model (rfl : constDetector.model = some constModel)
        (rfl : t150.amount = some 150000)]
  rw [show constModel (features_core t150 150000) = 0.7 from rfl]
  rw [show decide ((0.7 : ℚ) > 0.5) = true from decide_eq_true (by norm_num)]
  rw [show |(0.7 : ℚ) - 0.5| * 2 = 0.4 by
        rw [show (0.7 : ℚ) - 0.5 = 0.2 by norm_num,
            abs_of_pos (by norm_num : (0 : ℚ) < 0.2)]
        norm_num]

/-- **C9 (amended).** The model-path verdict carries `reasons = none` (the key
is absent, rather than an empty list) and `confidence = |p - 0.5| * 2`, which
lies in `[0,1]` whenever the model's probability does. -/
theorem C9_amended (m : List ℚ → ℚ) (d : FraudDetector) (t : Transaction) (a : ℚ)
    (hd : d.model = some m) (h : t.amount = some a)
    (hp0 : 0 ≤ m (features_core t a)) (hp1 : m (features_core t a) ≤ 1) :
    predict d t = .ok ⟨decide (m (features_core t a) > 0.5),
                       m (features_core t a), "cnn_model",
                       some (|m (features_core t a) - 0.5| * 2), none⟩ ∧
    0 ≤ |m (features_core t a) - 0.5| * 2 ∧
    |m (features_core t a) - 0.5| * 2 ≤ 1 := by
  refine ⟨predict_model hd h, by positivity, ?_⟩
  have hb : |m (features_core t a) - 0.5| ≤ 0.5 := by
    rw [abs_le]; constructor <;> linarith
  linarith

/-- Witness for C9_amended with the constant-0.7 model at `t150`. -/
theorem C9_witness :
    predict constDetector t150 =
      .ok ⟨decide (constModel (features_core t150 150000) > 0.5),
           constModel (features_core t150 150000), "cnn_model",
           some (|constModel (features_core t150 150000) - 0.5| * 2), none⟩ ∧
    0 ≤ |constModel (features_core t150 150000) - 0.5| * 2 ∧
    |constModel (features_core t150 150000) - 0.5| * 2 ≤ 1 :=
  C9_amended constModel constDetector t150 150000 rfl rfl
    (by norm_num [constModel]) (by norm_num [constModel])

/-- **C10 (confirmed).** In every rule-based verdict the reasons list is
nonempty exactly when the probability is positive, and it is the in-order
concatenation of the per-rule contributions: each triggered rule contributes
its reason text once, in declaration order, with the invalid-address rule
contributing one reason per failing side (its two inner appends) while its
weight enters the sum only once. -/
theorem C10_reasons_order (t : Transaction) (a : ℚ) (h : t.amount = some a)
    (v : Verdict) (hv : rule_based_detection t = .ok v)
    (rs : List String) (hrs : v.reasons = some rs) :
    (rs ≠ [] ↔ 0 < v.fraud_probability) ∧
    rs = (if a > 50000 then ["High transaction amount (>₹50,000)"]
          else if a > 100000 then ["Extremely high amount (>₹1,00,000)"] else []) ++
         (if t.hour < 6 ∨ t.hour > 22 then
            ["Unusual transaction time (" ++ toString t.hour ++ ":00 hrs)"] else []) ++
         (if pyMod a 1000 = 0 ∧ a > 10000 then
            ["Round amount (₹" ++ pyIntComma (pyInt a) ++ ")"] else []) ++
         (if pyTruthy t.device_id = false ∨ pyTruthy t.location = false ∨
             t.location ∈ location_sentinels.map some then
            ["Missing or invalid location/device data"] else []) ++
         (if t.sender_upi = t.receiver_upi then
            ["Self-transfer detected (same UPI IDs)"] else []) ++
         ((if _validate_upi_format t.sender_upi = false then
             ["Invalid sender UPI format"] else []) ++
          (if _validate_upi_format t.receiver_upi = false then
             ["Invalid receiver UPI format"] else [])) ++
         (if _is_suspicious_upi t.sender_upi = true ∨
             _is_suspicious_upi t.receiver_upi = true then
            ["Suspicious UPI pattern detected"] else []) ++
         (if 100 ≤ a ∧ a ≤ 500 then ["Small amount transaction pattern"] else []) ++
         (if a > 1000 ∧ ¬ pyMod a 10 = 0 ∧ decimalSuffix a ∉ ["0", "00", "5", "50"] then
            ["Unusual amount precision"] else []) := by
  rw [rule_based_detection_some h] at hv
  injection hv with h2
  subst h2
  rw [show (rule_based_core t a).reasons =
        some (((ruleSteps t a).map Prod.snd).flatten) from rfl] at hrs
  injection hrs with h3
  subst h3
  refine ⟨rule_based_core_reasons_iff t a, ?_⟩
  simp only [ruleSteps, List.map_cons, List.map_nil, List.flatten_cons, List.flatten_nil,
             List.append_nil]
  rw [rule1_snd, rule2_snd, rule3_snd, rule4_snd, rule5_snd, rule6_snd, rule7_snd,
      rule8_snd, rule9_snd]
  simp only [List.append_assoc]

/-- Witness for C10 at the concrete transaction `t150`. -/
theorem C10_witness :
    (["High transaction amount (>₹50,000)",
      "Unusual transaction time (2:00 hrs)",
      "Round amount (₹150,000)"] ≠ ([] : List String) ↔ 0 < (0.65 : ℚ)) ∧
    ["High transaction amount (>₹50,000)",
     "Unusual transaction time (2:00 hrs)",
     "Round amount (₹150,000)"] =
      (if (150000 : ℚ) > 50000 then ["High transaction amount (>₹50,000)"]
       else if (150000 : ℚ) > 100000 then ["Extremely high amount (>₹1,00,000)"] else []) ++
      (if t150.hour < 6 ∨ t150.hour > 22 then
         ["Unusual transaction time (" ++ toString t150.hour ++ ":00 hrs)"] else []) ++
      (if pyMod 150000 1000 = 0 ∧ (150000 : ℚ) > 10000 then
         ["Round amount (₹" ++ pyIntComma (pyInt 150000) ++ ")"] else []) ++
      (if pyTruthy t150.device_id = false ∨ pyTruthy t150.location = false ∨
          t150.location ∈ location_sentinels.map some then
         ["Missing or invalid location/device data"] else []) ++
      (if t150.sender_upi = t150.receiver_upi then
         ["Self-transfer detected (same UPI IDs)"] else []) ++
      ((if _validate_upi_format t150.sender_upi = false then
          ["Invalid sender UPI format"] else []) ++
       (if _validate_upi_format t150.receiver_upi = false then
          ["Invalid receiver UPI format"] else [])) ++
      (if _is_suspicious_upi t150.sender_upi = true ∨
          _is_suspicious_upi t150.receiver_upi = true then
         ["Suspicious UPI pattern detected"] else []) ++
      (if (100 : ℚ) ≤ 150000 ∧ (150000 : ℚ) ≤ 500 then
         ["Small amount transaction pattern"] else []) ++
      (if (150000 : ℚ) > 1000 ∧ ¬ pyMod 150000 10 = 0 ∧
          decimalSuffix 150000 ∉ ["0", "00", "5", "50"] then
         ["Unusual amount precision"] else []) :=
  C10_reasons_order t150 150000 rfl
    ⟨true, 0.65, "rule_based", none,
     some ["High transaction amount (>₹50,000)",
           "Unusual transaction time (2:00 hrs)",
           "Round amount (₹150,000)"]⟩ rule_based_t150
    ["High transaction amount (>₹50,000)",
     "Unusual transaction time (2:00 hrs)",
     "Round amount (₹150,000)"] rfl
